import Mathlib

/-!
Shallow embedding of the manga-tui interactive core: the event/action types
and main loop of src/backend/tui.rs, the App state machine of
src/view/app.rs, and the reading-history store of src/backend/history.rs.

Types that live in files not present under src/ (view/pages/*, view/widgets/*)
are modelled from the spec where the spec describes them; each such
definition carries a doc comment saying so. Channel handles, the terminal
picker and the HTTP client are connection/rendering resources, not data the
claims are about, and are omitted from the state.
-/

namespace MangaTui

/-- Global actions, from src/backend/tui.rs (enum Action). -/
inductive Action
  | GoToSearchPage
  | Quit
  | NextTab
  | PreviousTab
deriving DecidableEq, Repr

/-- Key codes; only the Char variant is inspected by App::handle_events. -/
inductive KeyCode
  | Char (c : Char)
  | Other
deriving DecidableEq, Repr

/-- Key modifiers; App::handle_events matches exactly CONTROL. -/
inductive KeyModifiers
  | CONTROL
  | NONE
  | OTHER
deriving DecidableEq, Repr

/-- A terminal key event (crossterm KeyEvent restricted to the fields the
core reads: code and modifiers). -/
structure KeyEvent where
  code : KeyCode
  modifiers : KeyModifiers
deriving DecidableEq, Repr

/-- Modelled from the spec: an item summary produced by search
(view/widgets/search.rs MangaItem is not under src/). Fields are the ones
App::handle_events passes to MangaPage::new; the image url and decoded
image state are rendering payloads and are omitted. -/
structure MangaItem where
  id : String
  title : String
  description : String
  tags : List String
  status : String
  content_rating : String
  author : Option String
deriving DecidableEq, Repr

/-- The chapter part of the page-set response: hash plus the two parallel
filename lists, full fidelity (data) and low fidelity (data_saver). -/
structure ChapterData where
  hash : String
  data : List String
  data_saver : List String
deriving DecidableEq, Repr

/-- The page-set response consumed by Events::ReadChapter. -/
structure ChapterPagesResponse where
  base_url : String
  chapter : ChapterData
deriving DecidableEq, Repr

/-- Global events, from src/backend/tui.rs (enum Events) together with the
navigation variants matched by App::handle_events in src/view/app.rs
(ReadChapter, GoBackMangaPage, GoSearchPage). The Redraw payload, a boxed
terminal-image protocol value in the source, is abstracted to its String
component. -/
inductive Events
  | Tick
  | Key (k : KeyEvent)
  | Redraw (id : String)
  | Mouse
  | GoToMangaPage (m : MangaItem)
  | ReadChapter (r : ChapterPagesResponse)
  | GoBackMangaPage
  | GoSearchPage
deriving DecidableEq, Repr

/-- AppState from src/view/app.rs (the source spells Runnning with three n). -/
inductive AppState
  | Runnning
  | Done
deriving DecidableEq, Repr

/-- The tab enum referenced by src/view/app.rs and src/backend/tui.rs
(declared in view/pages, not under src/); the three variants the sources
name are Search, MangaTab and ReaderTab, with Search the default. -/
inductive SelectedTabs
  | Search
  | MangaTab
  | ReaderTab
deriving DecidableEq, Repr

/-- Modelled from the spec: the search page input mode
(view/pages/search.rs is not under src/). App::handle_events only tests
whether the mode is Typing. -/
inductive InputMode
  | Idle
  | Typing
deriving DecidableEq, Repr

/-- Modelled from the spec: page-local actions mutate only the owning page
state; their concrete variants live in files not under src/, so they are
abstract tokens here. -/
abbrev SearchAction := Nat

/-- Modelled from the spec: page-local actions of the manga (detail) page,
abstract tokens (view/pages/manga.rs is not under src/). -/
abbrev MangaAction := Nat

/-- Modelled from the spec: the search page component
(view/pages/search.rs is not under src/). It owns local UI state and a
local action queue; its state is represented freely as the history of
events and actions it has absorbed, which is the most general model of a
component whose handlers mutate only its own state. -/
structure SearchPage where
  input_mode : InputMode
  handled : List Events
  applied : List SearchAction
  local_action_queue : List SearchAction
deriving DecidableEq, Repr

/-- Modelled from the spec: the search page handler records the event. -/
def SearchPage.handle_events (p : SearchPage) (e : Events) : SearchPage :=
  { p with handled := p.handled ++ [e] }

/-- Modelled from the spec: a local action mutates only the owning page. -/
def SearchPage.update (p : SearchPage) (a : SearchAction) : SearchPage :=
  { p with applied := p.applied ++ [a] }

/-- The search page as constructed once by App::new. -/
def SearchPage.init : SearchPage :=
  { input_mode := InputMode.Idle, handled := [], applied := [], local_action_queue := [] }

/-- Modelled from the spec: the detail page component
(view/pages/manga.rs is not under src/). The data fields are exactly the
arguments App::handle_events passes to MangaPage::new (minus the channel,
client and image payloads); local dynamics are recorded freely. -/
structure MangaPage where
  id : String
  title : String
  description : String
  tags : List String
  status : String
  content_rating : String
  author : String
  handled : List Events
  applied : List MangaAction
  local_action_queue : List MangaAction
deriving DecidableEq, Repr

/-- MangaPage::new as called from App::handle_events on GoToMangaPage:
the author option is defaulted with unwrap_or_default. -/
def MangaPage.new (m : MangaItem) : MangaPage :=
  { id := m.id, title := m.title, description := m.description, tags := m.tags,
    status := m.status, content_rating := m.content_rating,
    author := m.author.getD "", handled := [], applied := [], local_action_queue := [] }

/-- Modelled from the spec: the detail page handler records the event. -/
def MangaPage.handle_events (p : MangaPage) (e : Events) : MangaPage :=
  { p with handled := p.handled ++ [e] }

/-- Modelled from the spec: a local action mutates only the owning page. -/
def MangaPage.update (p : MangaPage) (a : MangaAction) : MangaPage :=
  { p with applied := p.applied ++ [a] }

/-- The reader page as constructed by App::handle_events on ReadChapter
(view/pages/reader.rs is not under src/): it receives the chapter hash,
the base url, the list passed from data_saver.take(5) and the list passed
from data.skip(5). -/
structure MangaReader where
  chapter_hash : String
  base_url : String
  low_fidelity : List String
  full_fidelity : List String
deriving DecidableEq, Repr

/-- Modelled from the spec: the ChapterPageSet is an ordered sequence of
page identifiers keyed by position, the low-fidelity entries first and the
full-fidelity entries after them (MangaReader internals are not under
src/; the spec fixes the order by position). -/
def MangaReader.pageSequence (r : MangaReader) : List String :=
  r.low_fidelity ++ r.full_fidelity

/-- The App state of src/view/app.rs, with the two global queues carried
as lists (head = oldest pending entry; the channels are unbounded FIFO).
The picker, channel senders and HTTP client handle are resources, not
state the transitions inspect, and are omitted. -/
structure App where
  state : AppState
  current_tab : SelectedTabs
  manga_page : Option MangaPage
  manga_reader_page : Option MangaReader
  search_page : SearchPage
  global_event_queue : List Events
  global_action_queue : List Action
deriving DecidableEq, Repr

/-- App::new: running, default (Search) tab, no detail or reader page,
fresh search page, empty queues. -/
def App.new : App :=
  { state := AppState.Runnning, current_tab := SelectedTabs.Search,
    manga_page := none, manga_reader_page := none,
    search_page := SearchPage.init,
    global_event_queue := [], global_action_queue := [] }

/-- Modelled from the spec: SelectedTabs::next (declared in view/pages,
not under src/). App::next_tab calls it with only the current tab as
input, so the cycle cannot consult page residency; the spec says the
cycle never selects the Reader tab, which forces the two-element cycle
between Search and MangaTab (a Reader current tab leaves the cycle at
Search). -/
def SelectedTabs.next : SelectedTabs → SelectedTabs
  | SelectedTabs.Search => SelectedTabs.MangaTab
  | SelectedTabs.MangaTab => SelectedTabs.Search
  | SelectedTabs.ReaderTab => SelectedTabs.Search

/-- Modelled from the spec: SelectedTabs::previous, the inverse walk of
the same two-element cycle. -/
def SelectedTabs.previous : SelectedTabs → SelectedTabs
  | SelectedTabs.Search => SelectedTabs.MangaTab
  | SelectedTabs.MangaTab => SelectedTabs.Search
  | SelectedTabs.ReaderTab => SelectedTabs.Search

/-- App::next_tab from src/view/app.rs. -/
def App.next_tab (app : App) : App :=
  { app with current_tab := app.current_tab.next }

/-- App::previous_tab from src/view/app.rs. -/
def App.previous_tab (app : App) : App :=
  { app with current_tab := app.current_tab.previous }

/-- App::handle_events from src/view/app.rs. A Ctrl-c key outside typing
mode sends Action::Quit on the global action channel; GoToMangaPage
switches to the MangaTab and replaces the detail page; ReadChapter
switches to the ReaderTab and replaces the reader page, passing
data_saver.take(5) and data.skip(5); GoBackMangaPage switches to the
MangaTab; GoSearchPage switches to the Search tab; everything else is
ignored. -/
def App.handle_events (app : App) (e : Events) : App :=
  match e with
  | Events.Key k =>
      if app.search_page.input_mode ≠ InputMode.Typing ∧
          k.code = KeyCode.Char 'c' ∧ k.modifiers = KeyModifiers.CONTROL then
        { app with global_action_queue := app.global_action_queue ++ [Action.Quit] }
      else
        app
  | Events.GoToMangaPage m =>
      { app with current_tab := SelectedTabs.MangaTab,
                 manga_page := some (MangaPage.new m) }
  | Events.ReadChapter r =>
      { app with
        current_tab := SelectedTabs.ReaderTab,
        manga_reader_page := some
          { chapter_hash := r.chapter.hash,
            base_url := r.base_url,
            low_fidelity := r.chapter.data_saver.take 5,
            full_fidelity := r.chapter.data.drop 5 } }
  | Events.GoBackMangaPage =>
      { app with current_tab := SelectedTabs.MangaTab }
  | Events.GoSearchPage =>
      { app with current_tab := SelectedTabs.Search }
  | _ => app

/-- App::update from src/view/app.rs. -/
def App.update (app : App) (a : Action) : App :=
  match a with
  | Action.Quit => { app with state := AppState.Done }
  | Action.PreviousTab => app.previous_tab
  | Action.NextTab => app.next_tab
  | Action.GoToSearchPage =>
      { app with current_tab := SelectedTabs.Search,
                 manga_reader_page := none,
                 manga_page := none }

/-- The result of running a piece of code that may hit a panicking unwrap. -/
inductive StepResult (α : Type)
  | panicked
  | ok (a : α)
deriving DecidableEq, Repr

/-- The tail of one run_app loop iteration (src/backend/tui.rs lines
95-109): drain at most one global action, then at most one search-page
local action (unconditionally), then at most one manga-page local action,
the latter only when the MangaTab is the current tab and the page exists
(the source uses if-let there, so an absent page is skipped). -/
def App.drain_actions (app : App) : App :=
  let app :=
    match app.global_action_queue with
    | [] => app
    | a :: rest => App.update { app with global_action_queue := rest } a
  let app :=
    match app.search_page.local_action_queue with
    | [] => app
    | a :: rest =>
        { app with
          search_page := SearchPage.update
            { app.search_page with local_action_queue := rest } a }
  if app.current_tab = SelectedTabs.MangaTab then
    match app.manga_page with
    | some p =>
        match p.local_action_queue with
        | [] => app
        | a :: rest =>
            { app with
              manga_page := some
                (MangaPage.update { p with local_action_queue := rest } a) }
    | none => app
  else
    app

/-- One iteration of the run_app loop body (src/backend/tui.rs lines
79-109), after the draw call (rendering does not change the modelled
state): receive at most one global event, let App::handle_events process
it, then dispatch the same event to the page of the now-current tab —
with a panicking unwrap when that tab is MangaTab and manga_page is None
(line 90) — and finally drain the action queues. The source match on the
current tab has arms only for Search and MangaTab, so a ReaderTab current
tab dispatches to no page. -/
def App.tick (app : App) : StepResult App :=
  match app.global_event_queue with
  | [] => StepResult.ok app.drain_actions
  | e :: rest =>
      let app := App.handle_events { app with global_event_queue := rest } e
      match app.current_tab with
      | SelectedTabs.Search =>
          StepResult.ok (App.drain_actions
            { app with search_page := app.search_page.handle_events e })
      | SelectedTabs.MangaTab =>
          match app.manga_page with
          | none => StepResult.panicked
          | some p =>
              StepResult.ok (App.drain_actions
                { app with manga_page := some (p.handle_events e) })
      | SelectedTabs.ReaderTab => StepResult.ok app.drain_actions

/-- The run_app while loop with fuel: the body runs only while the state
is Runnning; a panic inside a tick aborts the run. -/
def App.run : Nat → App → StepResult App
  | 0, app => StepResult.ok app
  | n + 1, app =>
      if app.state = AppState.Runnning then
        match app.tick with
        | StepResult.panicked => StepResult.panicked
        | StepResult.ok app2 => App.run n app2
      else
        StepResult.ok app

/-! ### History store (src/backend/history.rs) -/

/-- One database error class; rusqlite reports a constraint violation
(duplicate primary key) as an Err the source propagates with the question
mark operator. -/
inductive DbError
  | constraint
deriving DecidableEq, Repr

/-- The history database: the mangas table has rows (id, title) with id
the primary key, the chapters table has rows (id, title, manga_id) with
id the primary key. Row order is insertion order. -/
structure DB where
  mangas : List (String × String)
  chapters : List (String × String × String)
deriving DecidableEq, Repr

/-- The empty database created by the DBCONN initializer. -/
def DB.empty : DB := { mangas := [], chapters := [] }

/-- MangaReadingHistorySave from src/backend/history.rs. -/
structure MangaReadingHistorySave where
  id : String
  title : String
  chapter_id : String
  chapter_title : String
deriving DecidableEq, Repr

/-- INSERT INTO chapters VALUES (id, title, manga_id): fails on a
duplicate chapter primary key, otherwise appends the row. -/
def DB.insert_chapter (db : DB) (id title manga_id : String) :
    DB × Except DbError Unit :=
  if db.chapters.any (fun c => c.1 = id) then
    (db, Except.error DbError.constraint)
  else
    ({ db with chapters := db.chapters ++ [(id, title, manga_id)] }, Except.ok ())

/-- INSERT INTO mangas VALUES (id, title): fails on a duplicate manga
primary key, otherwise appends the row. -/
def DB.insert_manga (db : DB) (id title : String) : DB × Except DbError Unit :=
  if db.mangas.any (fun m => m.1 = id) then
    (db, Except.error DbError.constraint)
  else
    ({ db with mangas := db.mangas ++ [(id, title)] }, Except.ok ())

/-- save_history from src/backend/history.rs, acting on an open
connection: SELECT id FROM mangas WHERE id = ?; if a row exists, insert
only the chapter row referencing that id and return; otherwise insert the
manga row and then the chapter row. The question mark operator stops at
the first error; rows already inserted stay (sqlite autocommits each
statement). -/
def save_history (db : DB) (r : MangaReadingHistorySave) :
    DB × Except DbError Unit :=
  if db.mangas.any (fun m => m.1 = r.id) then
    db.insert_chapter r.chapter_id r.chapter_title r.id
  else
    let step1 := db.insert_manga r.id r.title
    match step1.2 with
    | Except.error e => (step1.1, Except.error e)
    | Except.ok _ => step1.1.insert_chapter r.chapter_id r.chapter_title r.id

/-- The connection-level save_history: the source takes the process-wide
DBCONN lock and calls binding.as_ref().unwrap() on the Option connection,
which panics when initialization failed and the Option is None. -/
def save_history_conn (conn : Option DB) (r : MangaReadingHistorySave) :
    StepResult (DB × Except DbError Unit) :=
  match conn with
  | none => StepResult.panicked
  | some db => StepResult.ok (save_history db r)

/-- MangaReadingHistoryRetrieve from src/backend/history.rs. -/
structure MangaReadingHistoryRetrieve where
  chapters_read : List String
deriving DecidableEq, Repr

/-- get_manga_history from src/backend/history.rs: it opens the database
and prepares a SELECT on the mangas table but never runs it, and returns
a retrieve record with an empty chapters_read vector regardless of the
argument and of the database contents. -/
def get_manga_history (_id : String) (_db : DB) : MangaReadingHistoryRetrieve :=
  { chapters_read := [] }

/-! ### Concrete sample states shared by witnesses and counterexamples -/

/-- A sample catalog item. -/
def sampleItem : MangaItem :=
  { id := "m1", title := "Title", description := "d", tags := [],
    status := "ongoing", content_rating := "safe", author := some "a" }

/-- A sample detail page. -/
def samplePage : MangaPage := MangaPage.new sampleItem

/-- A sample reader page. -/
def sampleReader : MangaReader :=
  { chapter_hash := "h", base_url := "u",
    low_fidelity := ["s1", "s2"], full_fidelity := ["f6"] }

/-- An App showing the reader, with both optional pages present. -/
def sampleReaderApp : App :=
  { App.new with
    current_tab := SelectedTabs.ReaderTab,
    manga_page := some samplePage,
    manga_reader_page := some sampleReader }

/-- An App whose state is Done. -/
def doneApp : App := { App.new with state := AppState.Done }

/-- The reader value App::handle_events builds for a ReadChapter event:
hash, base url, the first five data_saver filenames, the data filenames
after the first five. -/
def readerOf (r : ChapterPagesResponse) : MangaReader :=
  { chapter_hash := r.chapter.hash,
    base_url := r.base_url,
    low_fidelity := r.chapter.data_saver.take 5,
    full_fidelity := r.chapter.data.drop 5 }

/-- A concrete twelve-page chapter response with five low-fidelity
filenames. -/
def c1_response : ChapterPagesResponse :=
  { base_url := "u",
    chapter :=
      { hash := "h",
        data := ["p1", "p2", "p3", "p4", "p5", "p6", "p7", "p8", "p9", "p10", "p11", "p12"],
        data_saver := ["s1", "s2", "s3", "s4", "s5"] } }

/-- A save-progress record for chapter c1 of manga m1. -/
def c6_r1 : MangaReadingHistorySave :=
  { id := "m1", title := "Title", chapter_id := "c1", chapter_title := "Ch1" }

/-- A save-progress record for chapter c2 of manga m1. -/
def c6_r2 : MangaReadingHistorySave :=
  { id := "m1", title := "Title", chapter_id := "c2", chapter_title := "Ch2" }

/-- The database after the first save. -/
def c6_db1 : DB := (save_history DB.empty c6_r1).1

/-- The database after both saves. -/
def c6_db2 : DB := (save_history c6_db1 c6_r2).1

/-- The search page of c4App after its pending action is applied. -/
def c4DrainedSearch : SearchPage :=
  { input_mode := InputMode.Idle, handled := [], applied := [0], local_action_queue := [] }

/-- An App on the MangaTab with one pending search-page local action and
every other queue empty. -/
def c4App : App :=
  { App.new with
    current_tab := SelectedTabs.MangaTab,
    manga_page := some samplePage,
    search_page := { SearchPage.init with local_action_queue := [0] } }

/-! ### Claims -/

/-- C1: handling ReadChapter switches to the ReaderTab and builds the
reader from data_saver.take(5) and data.skip(5); for a chapter whose
full-fidelity list has 12 entries and whose low-fidelity list has at
least 5, the page sequence has 12 positions, positions 1-5 (indices 0-4)
resolve to low-fidelity identifiers and positions 6-12 (indices 5-11) to
full-fidelity identifiers. -/
theorem c1_reader_page_sequence_split (app : App) (r : ChapterPagesResponse)
    (hlow : 5 ≤ r.chapter.data_saver.length)
    (hfull : r.chapter.data.length = 12) :
    (app.handle_events (Events.ReadChapter r)).current_tab = SelectedTabs.ReaderTab ∧
    (app.handle_events (Events.ReadChapter r)).manga_reader_page = some (readerOf r) ∧
    (readerOf r).pageSequence.length = 12 ∧
    (∀ i : Nat, i < 5 → (readerOf r).pageSequence[i]? = r.chapter.data_saver[i]?) ∧
    (∀ i : Nat, 5 ≤ i → i < 12 → (readerOf r).pageSequence[i]? = r.chapter.data[i]?) := by
  have ht : (r.chapter.data_saver.take 5).length = 5 := by
    rw [List.length_take]; omega
  refine ⟨rfl, rfl, ?_, ?_, ?_⟩
  · simp only [MangaReader.pageSequence, readerOf, List.length_append, ht, List.length_drop]
    omega
  · intro i hi
    simp only [MangaReader.pageSequence, readerOf]
    rw [List.getElem?_append, ht, if_pos hi, List.getElem?_take, if_pos hi]
  · intro i h5 h12
    simp only [MangaReader.pageSequence, readerOf]
    rw [List.getElem?_append, ht, if_neg (by omega), List.getElem?_drop]
    have hi : 5 + (i - 5) = i := by omega
    rw [hi]

/-- C1, witnessed on the concrete twelve-page chapter: position 3 is the
third low-fidelity filename and position 10 is the tenth full-fidelity
filename. -/
theorem c1_reader_page_sequence_split_witness :
    (App.new.handle_events (Events.ReadChapter c1_response)).manga_reader_page =
      some (readerOf c1_response) ∧
    (readerOf c1_response).pageSequence.length = 12 ∧
    (readerOf c1_response).pageSequence[2]? = c1_response.chapter.data_saver[2]? ∧
    (readerOf c1_response).pageSequence[9]? = c1_response.chapter.data[9]? :=
  ⟨(c1_reader_page_sequence_split App.new c1_response (by decide) (by decide)).2.1,
   (c1_reader_page_sequence_split App.new c1_response (by decide) (by decide)).2.2.1,
   (c1_reader_page_sequence_split App.new c1_response (by decide) (by decide)).2.2.2.1
      2 (by decide),
   (c1_reader_page_sequence_split App.new c1_response (by decide) (by decide)).2.2.2.2
      9 (by decide) (by decide)⟩

/-- C4 as stated is false: with the MangaTab active, one loop tick pops
the pending search-page local action and applies it, so the inactive
search page queue is read and the search page state changes. -/
theorem c4_counterexample :
    c4App.current_tab = SelectedTabs.MangaTab ∧
    App.tick c4App = StepResult.ok { c4App with search_page := c4DrainedSearch } ∧
    c4DrainedSearch ≠ c4App.search_page := by
  refine ⟨rfl, rfl, by decide⟩

/-- C4 amended: the per-tick drain is asymmetric. In a tick with no
pending global event and no pending global action, a pending search-page
local action is popped and applied whatever the active tab is, while the
manga page is only touched when the MangaTab is active: under any other
tab it is unchanged. -/
theorem c4_local_queue_drain (app : App)
    (hev : app.global_event_queue = [])
    (hact : app.global_action_queue = [])
    (a : SearchAction) (rest : List SearchAction)
    (hq : app.search_page.local_action_queue = a :: rest) :
    App.tick app = StepResult.ok (App.drain_actions app) ∧
    (App.drain_actions app).search_page.applied = app.search_page.applied ++ [a] ∧
    (App.drain_actions app).search_page.local_action_queue = rest ∧
    (app.current_tab ≠ SelectedTabs.MangaTab →
      (App.drain_actions app).manga_page = app.manga_page) := by
  have hsp : (App.drain_actions app).search_page =
      { app.search_page with
        applied := app.search_page.applied ++ [a],
        local_action_queue := rest } ∧
      (app.current_tab ≠ SelectedTabs.MangaTab →
        (App.drain_actions app).manga_page = app.manga_page) := by
    simp only [App.drain_actions, hact, hq]
    by_cases htab : app.current_tab = SelectedTabs.MangaTab
    · rcases hmp : app.manga_page with _ | p
      · simp [htab, hmp, SearchPage.update]
      · rcases hql : p.local_action_queue with _ | ⟨b, bs⟩ <;>
          simp [htab, hmp, hql, SearchPage.update]
    · simp [htab, SearchPage.update]
  refine ⟨by simp [App.tick, hev], ?_, ?_, hsp.2⟩
  · rw [hsp.1]
  · rw [hsp.1]

/-- C4 amended, witnessed on the concrete MangaTab state with one pending
search action. -/
theorem c4_local_queue_drain_witness :
    App.tick c4App = StepResult.ok (App.drain_actions c4App) ∧
    (App.drain_actions c4App).search_page.applied = c4App.search_page.applied ++ [0] ∧
    (App.drain_actions c4App).search_page.local_action_queue = [] ∧
    (c4App.current_tab ≠ SelectedTabs.MangaTab →
      (App.drain_actions c4App).manga_page = c4App.manga_page) :=
  c4_local_queue_drain c4App rfl rfl 0 [] rfl

/-- C6: from the empty store, saving (m1, c1) and then (m1, c2) leaves
exactly one manga row m1 and exactly the chapter rows c1 and c2, both
referencing m1, and both saves succeed; in general a save leaves the
mangas table unchanged when the manga id is already present, and a
successful save always appends exactly the one chapter row. -/
theorem c6_save_progress :
    c6_db2.mangas = [("m1", "Title")] ∧
    c6_db2.chapters = [("c1", "Ch1", "m1"), ("c2", "Ch2", "m1")] ∧
    (save_history DB.empty c6_r1).2 = Except.ok () ∧
    (save_history c6_db1 c6_r2).2 = Except.ok () ∧
    (∀ (db : DB) (r : MangaReadingHistorySave),
      db.mangas.any (fun m => m.1 = r.id) = true →
      (save_history db r).1.mangas = db.mangas) ∧
    (∀ (db : DB) (r : MangaReadingHistorySave),
      (save_history db r).2 = Except.ok () →
      (save_history db r).1.chapters =
        db.chapters ++ [(r.chapter_id, r.chapter_title, r.id)]) := by
  refine ⟨by decide, by decide, by rfl, by rfl, ?_, ?_⟩
  · intro db r h
    simp only [save_history, h, if_true, DB.insert_chapter]
    split <;> rfl
  · intro db r h
    by_cases hex : db.mangas.any (fun m => m.1 = r.id) = true
    · simp only [save_history, hex, if_true, DB.insert_chapter] at h ⊢
      by_cases hdup : db.chapters.any (fun c => c.1 = r.chapter_id) = true
      · simp [hdup] at h
      · simp [hdup]
    · simp only [save_history, hex, if_false, DB.insert_manga, DB.insert_chapter] at h ⊢
      by_cases hdup : db.chapters.any (fun c => c.1 = r.chapter_id) = true
      · simp [hex, hdup] at h
      · simp [hex, hdup]

/-- C6, witnessed: the concrete final tables, plus the two general
conjuncts applied at concrete databases. -/
theorem c6_save_progress_witness :
    c6_db2.mangas = [("m1", "Title")] ∧
    (save_history c6_db1 c6_r2).1.mangas = c6_db1.mangas ∧
    (save_history DB.empty c6_r1).1.chapters =
      DB.empty.chapters ++ [(c6_r1.chapter_id, c6_r1.chapter_title, c6_r1.id)] :=
  ⟨c6_save_progress.1,
   c6_save_progress.2.2.2.2.1 c6_db1 c6_r2 (by decide),
   c6_save_progress.2.2.2.2.2 DB.empty c6_r1 (by rfl)⟩

/-- C8 fails on its resident-page conjunct: from the initial state, whose
detail page is absent, NextTab selects the MangaTab, a tab with no
resident page. -/
theorem c8_counterexample :
    (App.update App.new Action.NextTab).current_tab = SelectedTabs.MangaTab ∧
    (App.update App.new Action.NextTab).manga_page = none :=
  ⟨rfl, rfl⟩

/-- C8 amended: NextTab and PreviousTab never select the ReaderTab — they
walk the Search/MangaTab cycle whatever the page residency — and destroy
no page: the two optional page fields and the search page are unchanged. -/
theorem c8_tab_cycle (app : App) (a : Action)
    (h : a = Action.NextTab ∨ a = Action.PreviousTab) :
    (App.update app a).current_tab ≠ SelectedTabs.ReaderTab ∧
    (App.update app a).manga_page = app.manga_page ∧
    (App.update app a).manga_reader_page = app.manga_reader_page ∧
    (App.update app a).search_page = app.search_page := by
  have hnext : ∀ t : SelectedTabs, t.next ≠ SelectedTabs.ReaderTab := by
    intro t; cases t <;> simp [SelectedTabs.next]
  have hprev : ∀ t : SelectedTabs, t.previous ≠ SelectedTabs.ReaderTab := by
    intro t; cases t <;> simp [SelectedTabs.previous]
  rcases h with h | h <;> subst h
  · exact ⟨hnext app.current_tab, rfl, rfl, rfl⟩
  · exact ⟨hprev app.current_tab, rfl, rfl, rfl⟩

/-- C8 amended, witnessed with NextTab from the initial state. -/
theorem c8_tab_cycle_witness :
    (App.update App.new Action.NextTab).current_tab ≠ SelectedTabs.ReaderTab ∧
    (App.update App.new Action.NextTab).manga_page = App.new.manga_page ∧
    (App.update App.new Action.NextTab).manga_reader_page = App.new.manga_reader_page ∧
    (App.update App.new Action.NextTab).search_page = App.new.search_page :=
  c8_tab_cycle App.new Action.NextTab (Or.inl rfl)

/-- C2 as stated is false: handling the GoSearchPage (NavigateToSearch)
event switches the current tab to Search but destroys neither the detail
page nor the reader page — both Option fields stay Some, not None. -/
theorem c2_counterexample :
    (sampleReaderApp.handle_events Events.GoSearchPage).current_tab = SelectedTabs.Search ∧
    (sampleReaderApp.handle_events Events.GoSearchPage).manga_page = some samplePage ∧
    (sampleReaderApp.handle_events Events.GoSearchPage).manga_reader_page = some sampleReader ∧
    some samplePage ≠ (none : Option MangaPage) ∧
    some sampleReader ≠ (none : Option MangaReader) := by
  refine ⟨rfl, rfl, rfl, by simp, by simp⟩

/-- C2 amended: for every App state, the GoToSearchPage action switches
the current tab to Search and destroys both the detail page and the
reader page, while the GoSearchPage event only switches the current tab
to Search and leaves every other field, the two page fields included,
unchanged. -/
theorem c2_search_navigation (app : App) :
    App.update app Action.GoToSearchPage =
      { app with
        current_tab := SelectedTabs.Search,
        manga_reader_page := none,
        manga_page := none } ∧
    app.handle_events Events.GoSearchPage =
      { app with current_tab := SelectedTabs.Search } :=
  ⟨rfl, rfl⟩

/-- C2 amended, witnessed at a concrete state. -/
theorem c2_search_navigation_witness :
    App.update sampleReaderApp Action.GoToSearchPage =
      { sampleReaderApp with
        current_tab := SelectedTabs.Search,
        manga_reader_page := none,
        manga_page := none } ∧
    sampleReaderApp.handle_events Events.GoSearchPage =
      { sampleReaderApp with current_tab := SelectedTabs.Search } :=
  c2_search_navigation sampleReaderApp

/-- C3 as stated is false: handling GoBackMangaPage (NavigateBack) with
the Reader tab active switches the current tab to MangaTab but does not
destroy the reader page — the field keeps its Some value. -/
theorem c3_counterexample :
    sampleReaderApp.current_tab = SelectedTabs.ReaderTab ∧
    (sampleReaderApp.handle_events Events.GoBackMangaPage).current_tab = SelectedTabs.MangaTab ∧
    (sampleReaderApp.handle_events Events.GoBackMangaPage).manga_reader_page = some sampleReader ∧
    some sampleReader ≠ (none : Option MangaReader) := by
  refine ⟨rfl, rfl, rfl, by simp⟩

/-- C3 amended: handling GoBackMangaPage (NavigateBack) while the Reader
tab is active switches the current tab to MangaTab (Detail) and changes
nothing else; in particular the reader page is retained, not destroyed. -/
theorem c3_navigate_back (app : App) (_h : app.current_tab = SelectedTabs.ReaderTab) :
    app.handle_events Events.GoBackMangaPage =
      { app with current_tab := SelectedTabs.MangaTab } :=
  rfl

/-- C3 amended, witnessed at a concrete reader state. -/
theorem c3_navigate_back_witness :
    sampleReaderApp.handle_events Events.GoBackMangaPage =
      { sampleReaderApp with current_tab := SelectedTabs.MangaTab } :=
  c3_navigate_back sampleReaderApp rfl

/-- C5: applying the Quit action sets the state to Done from any App
state, and once the state is Done the run_app loop body is never entered
again: run returns the state untouched for every amount of fuel. -/
theorem c5_quit_sets_done_and_loop_exits :
    (∀ app : App, (App.update app Action.Quit).state = AppState.Done) ∧
    (∀ (n : Nat) (app : App), app.state = AppState.Done →
      App.run n app = StepResult.ok app) := by
  refine ⟨fun app => rfl, fun n app h => ?_⟩
  cases n with
  | zero => rfl
  | succ n => simp [App.run, h]

/-- C5, witnessed concretely: Quit from the initial state yields Done,
and a Done App exits the loop untouched with fuel 7. -/
theorem c5_quit_sets_done_and_loop_exits_witness :
    (App.update App.new Action.Quit).state = AppState.Done ∧
    App.run 7 doneApp = StepResult.ok doneApp :=
  ⟨c5_quit_sets_done_and_loop_exits.1 App.new,
   c5_quit_sets_done_and_loop_exits.2 7 doneApp rfl⟩

/-- C7: the claim is right and the code is wrong. When the lazily
initialized connection is absent (DBCONN holds None because opening the
database failed), save_history reaches binding.as_ref().unwrap() and
panics instead of degrading to a no-op. -/
theorem c7_save_history_none_panics :
    save_history_conn none
      { id := "m1", title := "Title", chapter_id := "c1", chapter_title := "Ch1" } =
      StepResult.panicked :=
  rfl

/-- C9: get_manga_history returns an empty chapters_read list for every
id and every database state, so its result never reflects progress saved
earlier with save_history. -/
theorem c9_get_history_always_empty :
    (∀ (id : String) (db : DB), (get_manga_history id db).chapters_read = []) ∧
    (∀ (id : String) (db : DB) (r : MangaReadingHistorySave),
      get_manga_history id (save_history db r).1 = get_manga_history id db) :=
  ⟨fun _ _ => rfl, fun _ _ _ => rfl⟩

/-- An App about to receive a GoBackMangaPage event while no detail page
exists: this is App::new with that single event pending, e.g. a stale
back event from a reader destroyed by a GoToSearchPage action. -/
def c10_failing_app : App :=
  { App.new with global_event_queue := [Events.GoBackMangaPage] }

/-- C10: the claim is right about the intent but the code panics. The
event dispatch of run_app can run with the MangaTab current and
manga_page = None: handling GoBackMangaPage sets the current tab to
MangaTab without creating a detail page, and the dispatch then unwraps
None, so the tick — and the whole run — panics. -/
theorem c10_manga_dispatch_unwrap_panics :
    c10_failing_app.manga_page = none ∧
    App.tick c10_failing_app = StepResult.panicked ∧
    App.run 1 c10_failing_app = StepResult.panicked :=
  ⟨rfl, rfl, rfl⟩

end MangaTui
